/-
Verification of the lead-enrichment signal scoring pipeline.

The definitions below are a shallow embedding of the repository's Python
sources (signal_tracker.py, serp_client.py, enrichment_engine.py,
presets/load_preset.py, config.py).  Strings are Lean strings, Python dicts
with fixed keys become structures, and ordered dicts become association
lists.  Python string operations (lower, replace, title, join, substring
containment) are modelled character-exactly on the underlying char lists.
-/
import Mathlib

set_option maxRecDepth 4000

/-! ## Python string primitives -/

/-- Python `str.lower()` (ASCII, as used by the sources). -/
def strLower (s : String) : String :=
  String.mk (s.data.map Char.toLower)

/-- Python `needle in haystack` substring containment. -/
def strContainsSub (haystack needle : String) : Bool :=
  decide (needle.data <:+: haystack.data)

/-- Python `s.endswith(suffix)` (also used for `Path` suffix tests). -/
def strEndsWith (s suffix : String) : Bool :=
  decide (suffix.data <:+ s.data)

/-- Python `s[:-n]` (drop the last `n` characters). -/
def strDropRight (s : String) (n : Nat) : String :=
  String.mk (s.data.take (s.data.length - n))

/-- Fuel-driven worker for Python `str.replace(old, new)`: scans left to
right, replacing each non-overlapping occurrence of `old`.  The fuel equals
the list length, which suffices because every step consumes at least one
character.  (The sources never call `replace` with an empty `old`.) -/
def pyReplaceAux (old new : List Char) : Nat → List Char → List Char
  | 0, l => l
  | _ + 1, [] => []
  | fuel + 1, c :: cs =>
    if !old.isEmpty && old.isPrefixOf (c :: cs) then
      new ++ pyReplaceAux old new fuel ((c :: cs).drop old.length)
    else
      c :: pyReplaceAux old new fuel cs

/-- Python `s.replace(old, new)`. -/
def pyReplace (s old new : String) : String :=
  String.mk (pyReplaceAux old.data new.data s.data.length s.data)

/-- Worker for Python `str.title()`: uppercases a letter that follows a
non-letter, lowercases a letter that follows a letter. -/
def pyTitleAux : Bool → List Char → List Char
  | _, [] => []
  | prevCased, c :: cs =>
    if c.isAlpha then
      (if prevCased then c.toLower else c.toUpper) :: pyTitleAux true cs
    else
      c :: pyTitleAux false cs

/-- Python `s.title()`. -/
def pyTitle (s : String) : String :=
  String.mk (pyTitleAux false s.data)

/-- Python `sep.join(items)`. -/
def pyJoin (sep : String) : List String → String
  | [] => ""
  | [x] => x
  | x :: y :: ys => x ++ sep ++ pyJoin sep (y :: ys)

/-- Python `dict.get(key)` on an insertion-ordered dict modelled as an
association list (first binding wins). -/
def assocGet {β : Type} (key : String) : List (String × β) → Option β
  | [] => none
  | p :: ps => if p.1 = key then some p.2 else assocGet key ps

/-- Lexicographic comparison of char lists by code point, as Python
compares strings. -/
def charListLt : List Char → List Char → Bool
  | [], [] => false
  | [], _ :: _ => true
  | _ :: _, [] => false
  | a :: as, b :: bs =>
    if a.toNat < b.toNat then true
    else if b.toNat < a.toNat then false
    else charListLt as bs

/-- Python string comparison `a < b`. -/
def strLt (a b : String) : Bool :=
  charListLt a.data b.data

/-- Insert into an ascending list of strings (helper for `sorted`). -/
def insertSorted (x : String) : List String → List String
  | [] => [x]
  | y :: ys => if strLt y x then y :: insertSorted x ys else x :: y :: ys

/-- Python `sorted` on a list of strings (ascending insertion sort). -/
def sortStrings : List String → List String
  | [] => []
  | x :: xs => insertSorted x (sortStrings xs)

/-! ## Data model (config.py, serp_client.py, signal_tracker.py) -/

/-- One entry of `CUSTOM_SIGNALS` in config.py. -/
structure SignalGroupConfig where
  enabled : Bool
  keywords : List String
  weight : Int
  query_template : String
deriving DecidableEq, Repr

/-- The `INTENT_THRESHOLDS` dict in config.py. -/
structure Thresholds where
  high : Int
  medium : Int
  low : Int
deriving DecidableEq, Repr

/-- A raw result record inside the SERP API JSON payload. -/
structure RawResult where
  title : String
  url : String
  description : String
deriving DecidableEq, Repr

/-- A formatted result as returned by `SerpClient.search_for_signals`. -/
structure SearchResult where
  title : String
  url : String
  description : String
  snippet : String
deriving DecidableEq, Repr

/-- The JSON object returned by `SerpClient.query`: `is_truthy` models
Python truthiness of the parsed payload, `results` is the optional
`"results"` field (`none` when the key is absent). -/
structure SerpResponse where
  is_truthy : Bool
  results : Option (List RawResult)
deriving DecidableEq, Repr

/-- An evidence dict built by `SignalTracker._analyze_signal`. -/
structure Evidence where
  source : String
  url : String
  matched_keywords : List String
  snippet : String
deriving DecidableEq, Repr

/-- The per-group dict stored in `detected_signals`. -/
structure SignalResult where
  detected : Bool
  weight : Int
  evidence : List Evidence
deriving DecidableEq, Repr

/-- The report dict returned by `SignalTracker.track_signals`. -/
structure Report where
  company_name : String
  domain : String
  total_score : Int
  intent_level : String
  signals : List (String × SignalResult)
  recommendation : String
deriving DecidableEq, Repr

/-! ## serp_client.py -/

/-- The result dict appended by `SerpClient.search_for_signals`, with the
snippet being the first 150 characters of the description (plus an
ellipsis when truncated). -/
def format_result (r : RawResult) : SearchResult :=
  { title := r.title
    url := r.url
    description := r.description
    snippet :=
      if r.description.length > 150 then r.description.take 150 ++ "..."
      else r.description }

/-- The result-collection loop of `SerpClient.search_for_signals`:
keeps results whose description length lies in [60, 600], and breaks once
`result_count` results have been collected (the break is checked after a
possible append). -/
def search_loop (result_count : Nat) : List RawResult → List SearchResult → List SearchResult
  | [], acc => acc
  | r :: rest, acc =>
    let acc' :=
      if 60 ≤ r.description.length ∧ r.description.length ≤ 600 then
        acc ++ [format_result r]
      else acc
    if result_count ≤ acc'.length then acc' else search_loop result_count rest acc'

/-- `SerpClient.search_for_signals` applied to an already-parsed query
response. -/
def search_for_signals (response : SerpResponse) (result_count : Nat) : List SearchResult :=
  if response.is_truthy = false then []
  else
    match response.results with
    | none => []
    | some rs => if rs.isEmpty then [] else search_loop result_count rs []

/-! ## signal_tracker.py -/

/-- The keywords of `keywords` that `SignalTracker._analyze_signal` finds
in one search result: case-insensitive substring match against the title
or the description (a hit in either counts). -/
def matched_keywords (keywords : List String) (r : SearchResult) : List String :=
  keywords.filter fun k =>
    strContainsSub (strLower r.title) (strLower k) ||
    strContainsSub (strLower r.description) (strLower k)

/-- `SignalTracker._analyze_signal`: returns the detection flag and one
evidence entry per result that matched at least one keyword. -/
def analyze_signal (results : List SearchResult) (keywords : List String) :
    Bool × List Evidence :=
  if results.isEmpty then (false, [])
  else
    (results.any fun r => !(matched_keywords keywords r).isEmpty,
     results.filterMap fun r =>
       if (matched_keywords keywords r).isEmpty then none
       else some { source := r.title, url := r.url,
                   matched_keywords := matched_keywords keywords r,
                   snippet := r.snippet })

/-- `SignalTracker._calculate_intent`. -/
def calculate_intent (thresholds : Thresholds) (score : Int) : String :=
  if score ≥ thresholds.high then "High"
  else if score ≥ thresholds.medium then "Medium"
  else "Low"

/-- `SignalTracker._get_recommendation`. -/
def get_recommendation (intent_level : String) (signals : List (String × SignalResult)) : String :=
  if intent_level = "High" then
    let top_signals :=
      (signals.filter fun p => p.2.detected).map fun p => pyTitle (pyReplace p.1 "_" " ")
    if !top_signals.isEmpty then
      "🔥 High priority lead! " ++ "Prioritize immediate outreach. " ++
        "Lead with: " ++ pyJoin ", " (top_signals.take 2) ++ ". " ++
        "Strong buying signals detected."
    else "🔥 High priority lead! Prioritize immediate outreach."
  else if intent_level = "Medium" then
    let detected_count := (signals.filter fun p => p.2.detected).length
    "⚡ Medium intent. " ++ toString detected_count ++ " signal(s) detected. " ++
      "Schedule standard outreach with personalized messaging."
  else
    "📊 Low intent. " ++ "Add to nurture campaign or revisit in 30-60 days. " ++
      "Consider lightweight touchpoints."

/-- The company-name derivation in `SignalTracker.track_signals`:
`domain.replace('.com','').replace('.io','').replace('.net','')
 .replace('-',' ').replace('_',' ').title()`. -/
def derive_company_name (domain : String) : String :=
  pyTitle (pyReplace (pyReplace (pyReplace (pyReplace (pyReplace domain
    ".com" "") ".io" "") ".net" "") "-" " ") "_" " ")

/-- `if not company_name:` — `None` and the empty string both trigger the
derivation from the domain. -/
def resolve_company_name (domain : String) (company_name : Option String) : String :=
  match company_name with
  | none => derive_company_name domain
  | some s => if s.isEmpty then derive_company_name domain else s

/-- `query_template.format(company_name=..., domain=..., keyword=...)`,
modelled as replacement of the three placeholders. -/
def format_template (tmpl company_name domain keyword : String) : String :=
  pyReplace (pyReplace (pyReplace tmpl "\x7bcompany_name\x7d" company_name)
    "\x7bdomain\x7d" domain) "\x7bkeyword\x7d" keyword

/-- The inner keyword loop of `SignalTracker.track_signals` for one signal
group: one gateway call per keyword, evidence merged across keywords, the
flag set once any keyword is detected. -/
def evaluate_group (gateway : String → List SearchResult)
    (company_name domain : String) (cfg : SignalGroupConfig) : Bool × List Evidence :=
  cfg.keywords.foldl
    (fun acc kw =>
      if (analyze_signal
            (gateway (format_template cfg.query_template company_name domain kw)) [kw]).1 then
        (true,
         acc.2 ++ (analyze_signal
            (gateway (format_template cfg.query_template company_name domain kw)) [kw]).2)
      else acc)
    (false, [])

/-- The `signal_results` dict stored for one enabled group: the detected
flag and evidence are only updated when some keyword was detected. -/
def result_of (gateway : String → List SearchResult)
    (company_name domain : String) (cfg : SignalGroupConfig) : SignalResult :=
  let de := evaluate_group gateway company_name domain cfg
  if de.1 then { detected := true, weight := cfg.weight, evidence := de.2 }
  else { detected := false, weight := cfg.weight, evidence := [] }

/-- `SignalTracker.track_signals`: iterates the configured signal groups
in declared order, skips disabled ones, accumulates the total score and the
per-group results, then classifies intent and derives a recommendation. -/
def track_signals (gateway : String → List SearchResult)
    (signals_config : List (String × SignalGroupConfig)) (thresholds : Thresholds)
    (domain : String) (company_name : Option String) : Report :=
  let cname := resolve_company_name domain company_name
  let acc := signals_config.foldl
    (fun acc p =>
      if p.2.enabled then
        ((if (result_of gateway cname domain p.2).detected then acc.1 + p.2.weight
          else acc.1),
         acc.2 ++ [(p.1, result_of gateway cname domain p.2)])
      else acc)
    ((0 : Int), ([] : List (String × SignalResult)))
  let intent := calculate_intent thresholds acc.1
  { company_name := cname
    domain := domain
    total_score := acc.1
    intent_level := intent
    signals := acc.2
    recommendation := get_recommendation intent acc.2 }

/-! ## Fallible gateway payloads (serp_client.py at JSON-shape level)

`SerpClient.query` returns whatever `response.json()` parsed, absorbing
its own exceptions, but `search_for_signals` has no exception handling:
`"results" not in response`, `response.get`, `for result in results` and
`result.get` each raise on a payload of the wrong JSON shape, and nothing
in `track_signals` catches them.  The types below model a parsed payload
at the shape granularity those operations dispatch on.  Records are
objects whose present `title`/`url`/`description` values are strings (the
shape the search API returns); everything around them may be arbitrarily
ill-shaped. -/

/-- The Python exceptions the pipeline can raise on a parseable but
ill-shaped payload: `TypeError` (membership test or iteration over a
non-container) and `AttributeError` (`.get` on a non-object). -/
inductive PyError where
  | typeError
  | attributeError
deriving DecidableEq, Repr

/-- One element of a JSON `"results"` array: a well-shaped record, or any
non-object value, on which `result.get("title", "")` raises
`AttributeError`. -/
inductive PyEntry where
  | record (r : RawResult)
  | non_record
deriving DecidableEq, Repr

/-- The JSON value under the `"results"` key: an array of entries, or a
non-array value described by the two features the code observes — its
truthiness (`if not results`) and whether `for` can iterate it (strings
and objects iterate, yielding non-record items; numbers, booleans and
null raise `TypeError` at the `for` statement). -/
inductive ResultsValue where
  | rlist (entries : List PyEntry)
  | non_list (truthy iterable : Bool)
deriving DecidableEq, Repr

/-- A parsed JSON payload returned by `response.json()`, at the shape
granularity `search_for_signals` dispatches on: an object (optional
`"results"` member, possibly other keys), a JSON string (`in` is a
substring test), a JSON array (`in` is an element test), or a bare
scalar (`in` raises `TypeError`). -/
inductive PyPayload where
  | pdict (results : Option ResultsValue) (has_other_keys : Bool)
  | pstr (s : String)
  | parray (truthy has_results_elem : Bool)
  | pscalar (truthy : Bool)
deriving DecidableEq, Repr

/-- Outcome of one HTTP round trip in `SerpClient.query`: transport
failures (`RequestException`, covering timeouts and `raise_for_status`
errors), unexpected errors (JSON parsing), or a parsed payload. -/
inductive GatewayOutcome where
  | transport_error
  | http_status_error
  | parse_error
  | ok (payload : PyPayload)
deriving DecidableEq, Repr

/-- `SerpClient.query`: on any failure the client logs and returns the
literal payload `{"results": []}`, so the caller never sees an exception
from the round trip itself. -/
def serp_query (o : GatewayOutcome) : PyPayload :=
  match o with
  | .ok p => p
  | _ => .pdict (some (.rlist [])) false

/-- Whether a gateway outcome is one of the absorbed failure branches of
`SerpClient.query`. -/
def is_gateway_failure : GatewayOutcome → Bool
  | .ok _ => false
  | _ => true

/-- The result-collection loop of `search_for_signals` over raw JSON
entries: a non-record entry reached by the loop raises `AttributeError`
at `result.get("title", "")`; records are filtered and collected exactly
as in `search_loop`. -/
def search_loop_py (result_count : Nat) :
    List PyEntry → List SearchResult → Except PyError (List SearchResult)
  | [], acc => .ok acc
  | .non_record :: _, _ => .error .attributeError
  | .record r :: rest, acc =>
    let acc' :=
      if 60 ≤ r.description.length ∧ r.description.length ≤ 600 then
        acc ++ [format_result r]
      else acc
    if result_count ≤ acc'.length then .ok acc'
    else search_loop_py result_count rest acc'

/-- `SerpClient.search_for_signals` over a parsed JSON payload, with the
Python failure modes: a falsy payload or one without a `"results"` member
is absorbed to `[]`; a truthy bare scalar raises `TypeError` at the
membership test; a string or array payload answers the membership test
itself, and a hit leads to `response.get` raising `AttributeError`; a
truthy non-array `"results"` value raises `TypeError` (not iterable) or
`AttributeError` (iterating a string or object yields non-records);
otherwise the entries are processed by the collection loop. -/
def search_for_signals_py (payload : PyPayload) (result_count : Nat) :
    Except PyError (List SearchResult) :=
  match payload with
  | .pscalar truthy =>
    if truthy = false then .ok [] else .error .typeError
  | .pstr s =>
    if s.isEmpty then .ok []
    else if strContainsSub s "results" then .error .attributeError
    else .ok []
  | .parray truthy has_results_elem =>
    if truthy = false then .ok []
    else if has_results_elem then .error .attributeError
    else .ok []
  | .pdict results has_other_keys =>
    if (results.isSome || has_other_keys) = false then .ok []
    else
      match results with
      | none => .ok []
      | some (.non_list truthy iterable) =>
        if truthy = false then .ok []
        else if iterable then .error .attributeError
        else .error .typeError
      | some (.rlist entries) =>
        if entries.isEmpty then .ok []
        else search_loop_py result_count entries []

/-- The keyword loop of `track_signals` over a fallible gateway: an
exception raised by any search call unwinds the whole run (there is no
handler in `track_signals`). -/
def evaluate_group_py_aux (gateway : String → Except PyError (List SearchResult))
    (company_name domain : String) (cfg : SignalGroupConfig) :
    List String → Bool × List Evidence → Except PyError (Bool × List Evidence)
  | [], acc => .ok acc
  | kw :: kws, acc =>
    match gateway (format_template cfg.query_template company_name domain kw) with
    | .error e => .error e
    | .ok results =>
      evaluate_group_py_aux gateway company_name domain cfg kws
        (if (analyze_signal results [kw]).1 then
          (true, acc.2 ++ (analyze_signal results [kw]).2)
         else acc)

/-- `evaluate_group` over a fallible gateway. -/
def evaluate_group_py (gateway : String → Except PyError (List SearchResult))
    (company_name domain : String) (cfg : SignalGroupConfig) :
    Except PyError (Bool × List Evidence) :=
  evaluate_group_py_aux gateway company_name domain cfg cfg.keywords (false, [])

/-- The group loop of `track_signals` over a fallible gateway. -/
def track_signals_py_aux (gateway : String → Except PyError (List SearchResult))
    (company_name domain : String) :
    List (String × SignalGroupConfig) → Int × List (String × SignalResult) →
      Except PyError (Int × List (String × SignalResult))
  | [], acc => .ok acc
  | p :: rest, acc =>
    if p.2.enabled then
      match evaluate_group_py gateway company_name domain p.2 with
      | .error e => .error e
      | .ok de =>
        track_signals_py_aux gateway company_name domain rest
          ((if de.1 then acc.1 + p.2.weight else acc.1),
           acc.2 ++ [(p.1,
             if de.1 then
               { detected := true, weight := p.2.weight, evidence := de.2 }
             else
               { detected := false, weight := p.2.weight, evidence := [] })])
    else track_signals_py_aux gateway company_name domain rest acc

/-- `SignalTracker.track_signals` over a fallible gateway: the first
exception from a search call propagates out (the method has no
try/except), otherwise the report is built as in the record-level model. -/
def track_signals_py (gateway : String → Except PyError (List SearchResult))
    (signals_config : List (String × SignalGroupConfig)) (thresholds : Thresholds)
    (domain : String) (company_name : Option String) : Except PyError Report :=
  let cname := resolve_company_name domain company_name
  match track_signals_py_aux gateway cname domain signals_config (0, []) with
  | .error e => .error e
  | .ok acc =>
    .ok { company_name := cname
          domain := domain
          total_score := acc.1
          intent_level := calculate_intent thresholds acc.1
          signals := acc.2
          recommendation :=
            get_recommendation (calculate_intent thresholds acc.1) acc.2 }

/-- The composed pipeline: `track_signals` calling
`self.serp.search_for_signals(query, result_count=3)`, with the raw
gateway behaviour surfaced through `SerpClient.query` and exceptions
propagated. -/
def track_signals_full (raw_gateway : String → GatewayOutcome)
    (signals_config : List (String × SignalGroupConfig)) (thresholds : Thresholds)
    (domain : String) (company_name : Option String) : Except PyError Report :=
  track_signals_py (fun q => search_for_signals_py (serp_query (raw_gateway q)) 3)
    signals_config thresholds domain company_name

/-! ## enrichment_engine.py -/

/-- One keyword-based starter block of
`CustomEnrichmentEngine._generate_conversation_starters`: emits a sentence
from the first matched keyword of the group's first evidence entry. -/
def keyword_starter (signals : List (String × SignalResult)) (group : String)
    (sentence : String → String) : Option String :=
  match assocGet group signals with
  | none => none
  | some sr =>
    if sr.detected then
      match sr.evidence with
      | [] => none
      | e :: _ =>
        match e.matched_keywords with
        | [] => none
        | k :: _ => some (sentence k)
    else none

/-- The strategic-signal starter block: references the source title of the
first evidence entry instead of a keyword. -/
def strategic_starter (signals : List (String × SignalResult)) : Option String :=
  match assocGet "strategic_signals" signals with
  | none => none
  | some sr =>
    if sr.detected then
      match sr.evidence with
      | [] => none
      | e :: _ =>
        some ("Just saw your post about " ++ e.source ++
          " - how does this fit into your roadmap?")
    else none

/-- Hiring starter sentence template. -/
def hiring_sentence (k : String) : String :=
  "Saw you\x27re hiring for roles involving " ++ k ++ " - are you expanding your team?"

/-- Tech-stack starter sentence template. -/
def tech_sentence (k : String) : String :=
  "Noticed you\x27re working with " ++ k ++ " - how\x27s that migration going?"

/-- Pain-point starter sentence template. -/
def pain_sentence (k : String) : String :=
  "Read some feedback about " ++ k ++ " - is this still a challenge?"

/-- The generic fallback starters used when no signal produced a starter. -/
def fallback_starters (company_name : String) : List String :=
  ["Interested in learning more about " ++ company_name ++ "\x27s data strategy",
   "Would love to connect and discuss potential collaboration opportunities",
   "Noticed " ++ company_name ++ "\x27s growth - how are you handling data at scale?"]

/-- `CustomEnrichmentEngine._generate_conversation_starters`: checks the
hardcoded groups in source order (hiring, tech stack, pain point,
strategic), substitutes the generic fallbacks when no starter was
collected, and returns `starters[:3]`. -/
def generate_conversation_starters (r : Report) : List String :=
  let starters :=
    (keyword_starter r.signals "hiring_signals" hiring_sentence).toList ++
    (keyword_starter r.signals "tech_stack_signals" tech_sentence).toList ++
    (keyword_starter r.signals "pain_point_signals" pain_sentence).toList ++
    (strategic_starter r.signals).toList
  let starters := if starters.isEmpty then fallback_starters r.company_name else starters
  starters.take 3

/-! ## presets/load_preset.py -/

/-- Failure modes of `PresetLoader.load_preset`: the `FileNotFoundError`
with its message, or a `json.JSONDecodeError` for a malformed file. -/
inductive LoadError where
  | not_found (msg : String)
  | malformed
deriving DecidableEq, Repr

/-- The `.json`-extension normalization at the top of
`PresetLoader.load_preset`. -/
def normalize_preset_name (name : String) : String :=
  if strEndsWith name ".json" then name else name ++ ".json"

/-- `Path.stem` for a `*.json` file name. -/
def path_stem (fname : String) : String :=
  strDropRight fname 5

/-- `PresetLoader.list_available_presets`: the sorted stems of the `*.json`
files in the presets directory. -/
def list_available_presets (files : List String) : List String :=
  sortStrings ((files.filter fun f => strEndsWith f ".json").map path_stem)

/-- The `FileNotFoundError` message of `PresetLoader.load_preset`. -/
def not_found_message (preset_name : String) (available : List String) : String :=
  "Preset \x27" ++ preset_name ++ "\x27 not found. " ++
    "Available presets: " ++ pyJoin ", " available

/-- `PresetLoader.load_preset` over a directory modelled as an association
list from file name to parse outcome (`none` = malformed JSON). -/
def load_preset {α : Type} (files : List (String × Option α)) (name : String) :
    Except LoadError α :=
  let pname := normalize_preset_name name
  match assocGet pname files with
  | none =>
    .error (.not_found (not_found_message pname
      (list_available_presets (files.map Prod.fst))))
  | some none => .error .malformed
  | some (some c) => .ok c

/-! ## config.py defaults -/

/-- The `CUSTOM_SIGNALS` configuration of config.py, in declared order. -/
def default_signals_config : List (String × SignalGroupConfig) :=
  [("hiring_signals",
    { enabled := true,
      keywords := ["data engineer", "machine learning engineer", "Snowflake", "dbt"],
      weight := 25,
      query_template := "\x7bcompany_name\x7d hiring \x7bkeyword\x7d" }),
   ("pain_point_signals",
    { enabled := true,
      keywords := ["manual data processes", "data quality issues", "slow reporting"],
      weight := 35,
      query_template := "\x7bcompany_name\x7d \x7bkeyword\x7d" }),
   ("tech_stack_signals",
    { enabled := true,
      keywords := ["Snowflake", "Databricks", "modern data stack"],
      weight := 25,
      query_template := "\x7bcompany_name\x7d uses \x7bkeyword\x7d" }),
   ("strategic_signals",
    { enabled := true,
      keywords := ["data strategy", "analytics transformation"],
      weight := 15,
      query_template := "\x7bcompany_name\x7d \x7bkeyword\x7d" })]

/-- The `INTENT_THRESHOLDS` configuration of config.py. -/
def default_thresholds : Thresholds :=
  { high := 60, medium := 30, low := 0 }

/-! ## Definitions following the spec's words (for refinement comparison) -/

/-- Split a char list into the chunks separated by space characters
(helper for the spec-worded word-by-word title-casing). -/
def splitOnSpace (cur : List Char) : List Char → List (List Char)
  | [] => [cur.reverse]
  | c :: cs =>
    if c = ' ' then cur.reverse :: splitOnSpace [] cs
    else splitOnSpace (c :: cur) cs

/-- Modelled from the spec for comparison with `derive_company_name`:
"strip the trailing `.com`/`.io`/`.net` suffix (first match only, in that
precedence order), replace `-` and `_` with spaces, then title-case each
word". -/
def derive_name_spec (domain : String) : String :=
  let stripped :=
    if strEndsWith domain ".com" then strDropRight domain 4
    else if strEndsWith domain ".io" then strDropRight domain 3
    else if strEndsWith domain ".net" then strDropRight domain 4
    else domain
  let spaced := pyReplace (pyReplace stripped "-" " ") "_" " "
  pyJoin " " ((splitOnSpace [] spaced.data).map fun w =>
    match w with
    | [] => ""
    | c :: cs => String.mk (c.toUpper :: cs))

/-- Modelled from the spec for comparison with
`generate_conversation_starters`: the same starter blocks inspected in the
spec's claimed priority order hiring / pain-point / tech-stack /
strategic. -/
def generate_starters_spec_order (r : Report) : List String :=
  let starters :=
    (keyword_starter r.signals "hiring_signals" hiring_sentence).toList ++
    (keyword_starter r.signals "pain_point_signals" pain_sentence).toList ++
    (keyword_starter r.signals "tech_stack_signals" tech_sentence).toList ++
    (strategic_starter r.signals).toList
  let starters := if starters.isEmpty then fallback_starters r.company_name else starters
  starters.take 3

/-! ## Concrete instances used by witnesses and counterexamples -/

/-- A gateway stub that always finds one hiring-related result. -/
def gw_w : String → List SearchResult :=
  fun _ =>
    [{ title := "Acme hiring data engineer", url := "https://jobs.example/1",
       description := "Acme is hiring a data engineer to build modern data pipelines",
       snippet := "Acme is hiring a data engineer" }]

/-- Two enabled groups with weights 70 and 60 (the over-100 scenario). -/
def cfg_a : List (String × SignalGroupConfig) :=
  [("grp_a", { enabled := true, keywords := ["data engineer"], weight := 70,
               query_template := "\x7bcompany_name\x7d hiring \x7bkeyword\x7d" }),
   ("grp_b", { enabled := true, keywords := ["data engineer"], weight := 60,
               query_template := "\x7bcompany_name\x7d \x7bkeyword\x7d" })]

/-- `cfg_a` with the two groups in the opposite iteration order. -/
def cfg_b : List (String × SignalGroupConfig) :=
  [("grp_b", { enabled := true, keywords := ["data engineer"], weight := 60,
               query_template := "\x7bcompany_name\x7d \x7bkeyword\x7d" }),
   ("grp_a", { enabled := true, keywords := ["data engineer"], weight := 70,
               query_template := "\x7bcompany_name\x7d hiring \x7bkeyword\x7d" })]

/-- A report in which all four default signal groups are detected with
evidence, used to exhibit the starter inspection order. -/
def rpt_all_detected : Report :=
  { company_name := "Acme", domain := "acme.com", total_score := 100,
    intent_level := "High",
    signals :=
      [("hiring_signals",
        { detected := true, weight := 25,
          evidence := [{ source := "T1", url := "u1",
                         matched_keywords := ["data engineer"], snippet := "s1" }] }),
       ("pain_point_signals",
        { detected := true, weight := 35,
          evidence := [{ source := "T2", url := "u2",
                         matched_keywords := ["data quality issues"], snippet := "s2" }] }),
       ("tech_stack_signals",
        { detected := true, weight := 25,
          evidence := [{ source := "T3", url := "u3",
                         matched_keywords := ["Snowflake"], snippet := "s3" }] }),
       ("strategic_signals",
        { detected := true, weight := 15,
          evidence := [{ source := "T4", url := "u4",
                         matched_keywords := ["data strategy"], snippet := "s4" }] })],
    recommendation := "r" }

/-- A report with a single undetected group (zero-evidence case). -/
def rpt_none_detected : Report :=
  { company_name := "Acme", domain := "acme.com", total_score := 0,
    intent_level := "Low",
    signals := [("hiring_signals", { detected := false, weight := 25, evidence := [] })],
    recommendation := "r" }

/-- A raw result with a 60-character description (the boundary of the
description filter). -/
def raw_r0 : RawResult :=
  { title := "t", url := "u",
    description := String.mk (List.replicate 60 (Char.ofNat 97)) }

/-- A truthy response holding exactly one filter-passing raw result. -/
def resp_r0 : SerpResponse :=
  { is_truthy := true, results := some [raw_r0] }

/-- A two-file preset directory used by the preset-loading witness. -/
def files_w : List (String × Option Nat) :=
  [("devtools.json", some 1), ("hrtech.json", some 2)]

/-! ## Derived characterizations (proof-layer definitions) -/

/-- The score contribution of one configured group. -/
def group_score (gateway : String → List SearchResult) (cname dom : String)
    (p : String × SignalGroupConfig) : Int :=
  if (result_of gateway cname dom p.2).detected then p.2.weight else 0

/-- The per-group results accumulated by `track_signals`, as a filter-map
over the configured groups. -/
def signal_list (gateway : String → List SearchResult) (cname dom : String)
    (cfg : List (String × SignalGroupConfig)) : List (String × SignalResult) :=
  (cfg.filter fun p => p.2.enabled).map fun p => (p.1, result_of gateway cname dom p.2)

/-- The total score accumulated by `track_signals`. -/
def signal_sum (gateway : String → List SearchResult) (cname dom : String)
    (cfg : List (String × SignalGroupConfig)) : Int :=
  ((cfg.filter fun p => p.2.enabled).map (group_score gateway cname dom)).sum

/-- The candidate starters in the order the generator inspects groups. -/
def starter_candidates (r : Report) : List String :=
  [keyword_starter r.signals "hiring_signals" hiring_sentence,
   keyword_starter r.signals "tech_stack_signals" tech_sentence,
   keyword_starter r.signals "pain_point_signals" pain_sentence,
   strategic_starter r.signals].reduceOption

/-! ## Helper lemmas -/

theorem filterMap_if_eq_filter_map {α β : Type} (p : α → Bool) (f : α → β) (l : List α) :
    (l.filterMap fun a => if p a then none else some (f a)) =
      (l.filter fun a => !p a).map f := by
  induction l with
  | nil => rfl
  | cons a l ih =>
    by_cases h : p a = true <;>
      simp [List.filterMap_cons, List.filter_cons, h, ih]

theorem analyze_signal_detected_evidence_ne_nil (results : List SearchResult)
    (keywords : List String) (h : (analyze_signal results keywords).1 = true) :
    (analyze_signal results keywords).2 ≠ [] := by
  unfold analyze_signal at *
  by_cases he : results.isEmpty = true
  · simp [he] at h
  · simp only [he, if_false, Bool.false_eq_true] at h ⊢
    simp only [List.any_eq_true] at h
    obtain ⟨r, hr, hmk⟩ := h
    intro hnil
    rw [List.filterMap_eq_nil_iff] at hnil
    have := hnil r hr
    simp only [Bool.not_eq_true'] at hmk
    simp [hmk] at this

theorem eval_fold_invariant (gateway : String → List SearchResult) (cname dom : String)
    (cfg : SignalGroupConfig) (kws : List String) :
    ∀ (acc : Bool × List Evidence), (acc.1 = true → acc.2 ≠ []) →
      ((kws.foldl
          (fun acc kw =>
            if (analyze_signal
                  (gateway (format_template cfg.query_template cname dom kw)) [kw]).1 then
              (true,
               acc.2 ++ (analyze_signal
                  (gateway (format_template cfg.query_template cname dom kw)) [kw]).2)
            else acc)
          acc).1 = true →
        (kws.foldl
          (fun acc kw =>
            if (analyze_signal
                  (gateway (format_template cfg.query_template cname dom kw)) [kw]).1 then
              (true,
               acc.2 ++ (analyze_signal
                  (gateway (format_template cfg.query_template cname dom kw)) [kw]).2)
            else acc)
          acc).2 ≠ []) := by
  induction kws with
  | nil => intro acc hinv h; exact hinv h
  | cons kw kws ih =>
    intro acc hinv
    simp only [List.foldl_cons]
    refine ih _ ?_
    by_cases hd : (analyze_signal (gateway
        (format_template cfg.query_template cname dom kw)) [kw]).1 = true
    · simp only [hd, if_true]
      intro _
      have hne := analyze_signal_detected_evidence_ne_nil _ _ hd
      simp [hne]
    · simp only [hd, if_false, Bool.false_eq_true]
      exact hinv

theorem evaluate_group_detected_evidence_ne_nil
    (gateway : String → List SearchResult) (cname dom : String)
    (cfg : SignalGroupConfig) (h : (evaluate_group gateway cname dom cfg).1 = true) :
    (evaluate_group gateway cname dom cfg).2 ≠ [] := by
  unfold evaluate_group at h ⊢
  exact eval_fold_invariant gateway cname dom cfg cfg.keywords (false, []) (by simp) h

theorem evaluate_group_empty_gateway (cname dom : String) (cfg : SignalGroupConfig) :
    evaluate_group (fun _ => []) cname dom cfg = (false, []) := by
  unfold evaluate_group
  induction cfg.keywords with
  | nil => rfl
  | cons kw kws ih => simpa [analyze_signal] using ih

theorem track_fold_eq (gateway : String → List SearchResult) (cname dom : String)
    (l : List (String × SignalGroupConfig)) :
    ∀ (s : Int) (acc : List (String × SignalResult)),
      l.foldl
        (fun acc p =>
          if p.2.enabled then
            ((if (result_of gateway cname dom p.2).detected then acc.1 + p.2.weight
              else acc.1),
             acc.2 ++ [(p.1, result_of gateway cname dom p.2)])
          else acc)
        (s, acc)
      = (s + signal_sum gateway cname dom l, acc ++ signal_list gateway cname dom l) := by
  induction l with
  | nil => intro s acc; simp [signal_sum, signal_list]
  | cons p l ih =>
    intro s acc
    by_cases hp : p.2.enabled = true
    · simp only [List.foldl_cons, hp, if_true, ih]
      rw [Prod.mk.injEq]
      refine ⟨?_, ?_⟩
      · simp only [signal_sum, List.filter_cons, hp, List.map_cons, List.sum_cons]
        by_cases hd : (result_of gateway cname dom p.2).detected = true <;>
          simp [group_score, hd] <;> ring
      · simp [signal_list, List.filter_cons, hp]
    · simp only [List.foldl_cons, hp, if_false, Bool.false_eq_true, ih]
      simp only [signal_sum, signal_list, List.filter_cons, hp]
      simp

theorem track_signals_eq (gateway : String → List SearchResult)
    (cfg : List (String × SignalGroupConfig)) (th : Thresholds)
    (dom : String) (cn : Option String) :
    track_signals gateway cfg th dom cn =
      { company_name := resolve_company_name dom cn
        domain := dom
        total_score := signal_sum gateway (resolve_company_name dom cn) dom cfg
        intent_level :=
          calculate_intent th (signal_sum gateway (resolve_company_name dom cn) dom cfg)
        signals := signal_list gateway (resolve_company_name dom cn) dom cfg
        recommendation :=
          get_recommendation
            (calculate_intent th (signal_sum gateway (resolve_company_name dom cn) dom cfg))
            (signal_list gateway (resolve_company_name dom cn) dom cfg) } := by
  simp only [track_signals]
  rw [track_fold_eq]
  simp

theorem sum_map_zero {α : Type} (l : List α) : (l.map fun _ => (0 : Int)).sum = 0 := by
  induction l with
  | nil => rfl
  | cons a l ih => simp [ih]

theorem assocGet_mem {β : Type} (key : String) (l : List (String × β)) (v : β)
    (h : assocGet key l = some v) : ∃ p ∈ l, p.1 = key ∧ p.2 = v := by
  induction l with
  | nil => simp [assocGet] at h
  | cons p ps ih =>
    by_cases hk : p.1 = key
    · simp only [assocGet, hk, if_true, Option.some.injEq] at h
      exact ⟨p, List.mem_cons_self p ps, hk, h⟩
    · simp only [assocGet, hk, if_false] at h
      obtain ⟨q, hq, hq1, hq2⟩ := ih h
      exact ⟨q, List.mem_cons_of_mem p hq, hq1, hq2⟩

theorem search_loop_length_le (result_count : Nat) :
    ∀ (rs : List RawResult) (acc : List SearchResult),
      acc.length < result_count → (search_loop result_count rs acc).length ≤ result_count := by
  intro rs
  induction rs with
  | nil => intro acc h; exact Nat.le_of_lt h
  | cons r rest ih =>
    intro acc h
    simp only [search_loop]
    by_cases hf : 60 ≤ r.description.length ∧ r.description.length ≤ 600
    · rw [if_pos hf]
      by_cases hb : result_count ≤ (acc ++ [format_result r]).length
      · rw [if_pos hb]
        simp only [List.length_append, List.length_singleton]
        omega
      · rw [if_neg hb]
        refine ih _ ?_
        simp only [List.length_append, List.length_singleton] at hb ⊢
        omega
    · rw [if_neg hf]
      by_cases hb : result_count ≤ acc.length
      · rw [if_pos hb]
        exact Nat.le_of_lt h
      · rw [if_neg hb]
        exact ih _ (Nat.lt_of_not_le hb)

theorem search_loop_mem (result_count : Nat) :
    ∀ (rs : List RawResult) (acc : List SearchResult) (x : SearchResult),
      x ∈ search_loop result_count rs acc →
        x ∈ acc ∨ (60 ≤ x.description.length ∧ x.description.length ≤ 600) := by
  intro rs
  induction rs with
  | nil => intro acc x h; exact Or.inl h
  | cons r rest ih =>
    intro acc x h
    simp only [search_loop] at h
    by_cases hf : 60 ≤ r.description.length ∧ r.description.length ≤ 600
    · rw [if_pos hf] at h
      have hstep : x ∈ acc ++ [format_result r] →
          x ∈ acc ∨ (60 ≤ x.description.length ∧ x.description.length ≤ 600) := by
        intro hx
        rcases List.mem_append.mp hx with hx | hx
        · exact Or.inl hx
        · right
          have : x = format_result r := List.mem_singleton.mp hx
          subst this
          simpa [format_result] using hf
      by_cases hb : result_count ≤ (acc ++ [format_result r]).length
      · rw [if_pos hb] at h
        exact hstep h
      · rw [if_neg hb] at h
        rcases ih _ _ h with hx | hx
        · exact hstep hx
        · exact Or.inr hx
    · rw [if_neg hf] at h
      by_cases hb : result_count ≤ acc.length
      · rw [if_pos hb] at h
        exact Or.inl h
      · rw [if_neg hb] at h
        exact ih _ _ h

theorem pyJoin_mem_infix (sep : String) :
    ∀ (l : List String) (p : String), p ∈ l → p.data <:+: (pyJoin sep l).data := by
  intro l
  induction l with
  | nil => intro p hp; simp at hp
  | cons x xs ih =>
    intro p hp
    cases xs with
    | nil =>
      have : p = x := by simpa using hp
      subst this
      exact List.infix_refl _
    | cons y ys =>
      rcases List.mem_cons.mp hp with hp | hp
      · subst hp
        show p.data <:+: (p ++ sep ++ pyJoin sep (y :: ys)).data
        have : (p ++ sep ++ pyJoin sep (y :: ys)).data =
            p.data ++ (sep.data ++ (pyJoin sep (y :: ys)).data) := by
          simp [List.append_assoc]
        rw [this]
        exact (List.prefix_append _ _).isInfix
      · have hin := ih p hp
        show p.data <:+: (x ++ sep ++ pyJoin sep (y :: ys)).data
        have heq : (x ++ sep ++ pyJoin sep (y :: ys)).data =
            (x.data ++ sep.data) ++ (pyJoin sep (y :: ys)).data := by
          simp [List.append_assoc]
        rw [heq]
        exact hin.trans (List.suffix_append _ _).isInfix

/-! ## Claim theorems -/

/-- Claim C2: for every integer score and thresholds, the intent
classification returns "High" iff `score >= high`, "Medium" iff
`medium <= score < high`, and "Low" otherwise, with inclusive lower bounds
(60 with high=60 is High, 30 with medium=30 is Medium, 59 is Medium, 29 is
Low); the High branch is checked first, so any `score >= high` is High even
when `medium > high`. -/
theorem calculate_intent_tiers : ∀ (th : Thresholds) (score : Int),
    (calculate_intent th score = "High" ↔ th.high ≤ score)
    ∧ (calculate_intent th score = "Medium" ↔ (th.medium ≤ score ∧ score < th.high))
    ∧ (calculate_intent th score = "Low" ↔
        (¬ th.high ≤ score ∧ ¬ (th.medium ≤ score ∧ score < th.high)))
    ∧ calculate_intent default_thresholds 60 = "High"
    ∧ calculate_intent default_thresholds 30 = "Medium"
    ∧ calculate_intent default_thresholds 59 = "Medium"
    ∧ calculate_intent default_thresholds 29 = "Low" := by
  intro th score
  refine ⟨?_, ?_, ?_, by decide, by decide, by decide, by decide⟩ <;>
    (unfold calculate_intent
     split_ifs with h1 h2 <;>
       first
         | exact iff_of_true rfl (by omega)
         | exact iff_of_false (by decide) (by omega))

/-- Claim C4 (counterexample): the spec's derivation — strip only a
trailing `.com`/`.io`/`.net` suffix, first match only — disagrees with the
code on `"radio.network"`: the code's `str.replace` deletes the interior
`".net"` occurrence and yields `"Radiowork"`, while the claimed rule leaves
the domain untouched and yields `"Radio.network"`. -/
theorem derive_company_name_counterexample :
    derive_company_name "radio.network" = "Radiowork"
    ∧ derive_name_spec "radio.network" = "Radio.network"
    ∧ derive_company_name "radio.network" ≠ derive_name_spec "radio.network" := by
  decide

/-- Claim C4 (amended): when `company_name` is absent, `track_signals`
derives it by deleting every occurrence of `".com"`, then `".io"`, then
`".net"` anywhere in the domain (not only a trailing suffix), replacing
`-` and `_` with spaces and Python title-casing; in particular
`"acme.com"` gives `"Acme"`, `"bright-data.io"` gives `"Bright Data"`,
`"my_app.net"` gives `"My App"`, and `"radio.network"` gives
`"Radiowork"`. -/
theorem derive_company_name_amended :
    (track_signals (fun _ => []) [] default_thresholds "acme.com" none).company_name = "Acme"
    ∧ (track_signals (fun _ => []) [] default_thresholds
        "bright-data.io" none).company_name = "Bright Data"
    ∧ (track_signals (fun _ => []) [] default_thresholds
        "my_app.net" none).company_name = "My App"
    ∧ derive_company_name "radio.network" = "Radiowork"
    ∧ (∀ (d : String),
        (track_signals (fun _ => []) [] default_thresholds d none).company_name =
          derive_company_name d) := by
  refine ⟨by decide, by decide, by decide, by decide, fun d => ?_⟩
  rw [track_signals_eq]
  rfl

/-- Claim C8 (counterexample): with `result_count = 0` and a single raw
result whose description passes the length filter, `search_for_signals`
still returns one result, because the break is only checked after the
append — so the returned list is not bounded by `result_count` for every
`result_count`. -/
theorem search_result_count_zero_counterexample :
    (search_for_signals resp_r0 0).length = 1
    ∧ ¬ ((search_for_signals resp_r0 0).length ≤ 0) := by
  decide

/-- Claim C8 (amended): for every query response and every
`result_count >= 1`, `search_for_signals` returns at most `result_count`
formatted results, and every returned result has a description whose
length lies in [60, 600]; raw results outside this range are discarded
before counting toward the bound.  (With `result_count = 0` one result can
still be emitted before the bound check.) -/
theorem search_result_bounds_amended : ∀ (response : SerpResponse) (result_count : Nat),
    (1 ≤ result_count →
      (search_for_signals response result_count).length ≤ result_count)
    ∧ (∀ r ∈ search_for_signals response result_count,
        60 ≤ r.description.length ∧ r.description.length ≤ 600) := by
  intro response n
  constructor
  · intro h1
    unfold search_for_signals
    split
    · simp
    · split
      · simp
      · split
        · simp
        · exact search_loop_length_le n _ [] (by simp only [List.length_nil]; omega)
  · intro r hr
    unfold search_for_signals at hr
    split at hr
    · simp at hr
    · split at hr
      · simp at hr
      · split at hr
        · simp at hr
        · rcases search_loop_mem n _ [] r hr with hx | hx
          · simp at hx
          · exact hx

/-- Claim C1: for every configuration and gateway behaviour, the report's
total_score equals the sum of the weights of the signal entries whose
detected flag is true (exactly the enabled, detected groups — no clamping
or cap), and the sum is invariant under permutation of the group iteration
order. -/
theorem track_signals_total_score_sum :
    ∀ (gateway : String → List SearchResult)
      (cfg cfg' : List (String × SignalGroupConfig)) (th : Thresholds)
      (d : String) (cn : Option String),
    ((track_signals gateway cfg th d cn).total_score =
      ((track_signals gateway cfg th d cn).signals.map
        fun p => if p.2.detected then p.2.weight else 0).sum)
    ∧ (cfg.Perm cfg' →
        (track_signals gateway cfg' th d cn).total_score =
          (track_signals gateway cfg th d cn).total_score) := by
  intro gateway cfg cfg' th d cn
  constructor
  · rw [track_signals_eq]
    show signal_sum gateway (resolve_company_name d cn) d cfg =
      ((signal_list gateway (resolve_company_name d cn) d cfg).map
        fun p => if p.2.detected then p.2.weight else 0).sum
    simp only [signal_sum, signal_list, List.map_map]
    refine congrArg List.sum (List.map_congr_left ?_)
    intro p _
    simp only [Function.comp_apply, group_score, result_of]
    by_cases hd :
        (evaluate_group gateway (resolve_company_name d cn) d p.2).1 = true <;>
      simp [hd]
  · intro hperm
    rw [track_signals_eq, track_signals_eq]
    show signal_sum gateway (resolve_company_name d cn) d cfg' =
      signal_sum gateway (resolve_company_name d cn) d cfg
    simp only [signal_sum]
    exact (((hperm.filter _).map _).sum_eq).symm

/-- Claim C10: the report's signals mapping contains exactly the enabled
groups as keys in declared order (disabled groups omitted entirely), every
entry's weight equals the group's configured weight, and every entry's
detected flag is true iff its evidence list is non-empty. -/
theorem track_signals_signals_invariant :
    ∀ (gateway : String → List SearchResult)
      (cfg : List (String × SignalGroupConfig)) (th : Thresholds)
      (d : String) (cn : Option String),
    ((track_signals gateway cfg th d cn).signals.map Prod.fst =
      (cfg.filter fun p => p.2.enabled).map Prod.fst)
    ∧ ((track_signals gateway cfg th d cn).signals =
        (cfg.filter fun p => p.2.enabled).map
          fun p => (p.1, result_of gateway (resolve_company_name d cn) d p.2))
    ∧ (∀ p ∈ (track_signals gateway cfg th d cn).signals,
        ∃ q ∈ cfg, q.2.enabled = true ∧ p.1 = q.1 ∧ p.2.weight = q.2.weight)
    ∧ (∀ p ∈ (track_signals gateway cfg th d cn).signals,
        (p.2.detected = true ↔ p.2.evidence ≠ [])) := by
  intro gateway cfg th d cn
  have hs : (track_signals gateway cfg th d cn).signals =
      signal_list gateway (resolve_company_name d cn) d cfg := by
    rw [track_signals_eq]
  refine ⟨?_, ?_, ?_, ?_⟩
  · rw [hs]
    simp [signal_list, List.map_map, Function.comp]
  · rw [hs]
    rfl
  · rw [hs]
    intro p hp
    simp only [signal_list, List.mem_map] at hp
    obtain ⟨q, hq, rfl⟩ := hp
    have hqf := List.mem_filter.mp hq
    refine ⟨q, hqf.1, hqf.2, rfl, ?_⟩
    simp only [result_of]
    by_cases hd :
        (evaluate_group gateway (resolve_company_name d cn) d q.2).1 = true <;>
      simp [hd]
  · rw [hs]
    intro p hp
    simp only [signal_list, List.mem_map] at hp
    obtain ⟨q, hq, rfl⟩ := hp
    simp only [result_of]
    by_cases hd :
        (evaluate_group gateway (resolve_company_name d cn) d q.2).1 = true
    · rw [if_pos hd]
      exact iff_of_true rfl
        (evaluate_group_detected_evidence_ne_nil gateway
          (resolve_company_name d cn) d q.2 hd)
    · rw [if_neg hd]
      exact iff_of_false (by simp) (by simp)

/-- Claim C3: the evidence matcher detects a keyword iff its lowercase
form is a substring of the result's lowercased title or lowercased
description (either counts); all keywords matching one result are recorded
in a single evidence entry, in input result order; and it returns
`(false, [])` exactly when the results are empty or no keyword matches
(total function, never an exception). -/
theorem analyze_signal_matching :
    ∀ (results : List SearchResult) (keywords : List String),
    ((analyze_signal results keywords).2 =
      (results.filter fun r => !(matched_keywords keywords r).isEmpty).map
        fun r =>
          { source := r.title, url := r.url,
            matched_keywords := matched_keywords keywords r,
            snippet := r.snippet })
    ∧ (∀ (r : SearchResult) (k : String),
        k ∈ matched_keywords keywords r ↔
          (k ∈ keywords ∧
            ((strLower k).data <:+: (strLower r.title).data ∨
             (strLower k).data <:+: (strLower r.description).data)))
    ∧ (analyze_signal results keywords = (false, []) ↔
        ∀ r ∈ results, matched_keywords keywords r = []) := by
  intro results keywords
  refine ⟨?_, ?_, ?_⟩
  · unfold analyze_signal
    by_cases he : results.isEmpty = true
    · rw [if_pos he]
      have hnil : results = [] := List.isEmpty_iff.mp he
      subst hnil
      rfl
    · rw [if_neg he]
      exact filterMap_if_eq_filter_map
        (fun r => (matched_keywords keywords r).isEmpty)
        (fun r =>
          ({ source := r.title, url := r.url,
             matched_keywords := matched_keywords keywords r,
             snippet := r.snippet } : Evidence))
        results
  · intro r k
    simp [matched_keywords, List.mem_filter, strContainsSub]
  · unfold analyze_signal
    by_cases he : results.isEmpty = true
    · rw [if_pos he]
      have hnil : results = [] := List.isEmpty_iff.mp he
      subst hnil
      simp
    · rw [if_neg he]
      constructor
      · intro h
        have h1 : (results.any fun r => !(matched_keywords keywords r).isEmpty) = false :=
          congrArg Prod.fst h
        intro r hr
        have := List.any_eq_false.mp h1 r hr
        simpa using this
      · intro hall
        have h1 : (results.any fun r => !(matched_keywords keywords r).isEmpty) = false :=
          List.any_eq_false.mpr fun r hr => by simp [hall r hr]
        have h2 : (results.filterMap fun r =>
            if (matched_keywords keywords r).isEmpty then none
            else some ({ source := r.title, url := r.url,
                         matched_keywords := matched_keywords keywords r,
                         snippet := r.snippet } : Evidence)) = [] :=
          List.filterMap_eq_nil_iff.mpr fun r hr => by simp [hall r hr]
        rw [h1, h2]

/-- Claim C5 (counterexample): the generator inspects the groups in the
source order hiring, tech-stack, pain-point, strategic — not the claimed
hiring, pain-point, tech-stack, strategic — so on a report where all four
groups are detected the returned starters differ from the claimed order. -/
theorem conversation_starters_order_counterexample :
    generate_conversation_starters rpt_all_detected =
      [hiring_sentence "data engineer", tech_sentence "Snowflake",
       pain_sentence "data quality issues"]
    ∧ generate_starters_spec_order rpt_all_detected =
      [hiring_sentence "data engineer", pain_sentence "data quality issues",
       tech_sentence "Snowflake"]
    ∧ generate_conversation_starters rpt_all_detected ≠
      generate_starters_spec_order rpt_all_detected := by
  decide

/-- Claim C5 (amended): the starter generator inspects the hardcoded
groups in the fixed order hiring, tech-stack, pain-point, strategic, emits
one templated sentence per detected group whose first evidence entry
carries a matched keyword (the evidence source title for the strategic
group), keeps only the first three, and always returns at most three
starters. -/
theorem conversation_starters_amended : ∀ (r : Report),
    ((generate_conversation_starters r).length ≤ 3)
    ∧ (generate_conversation_starters r =
        (if (starter_candidates r).isEmpty then fallback_starters r.company_name
         else (starter_candidates r).take 3)) := by
  intro r
  have heq : generate_conversation_starters r =
      (if (starter_candidates r).isEmpty then fallback_starters r.company_name
       else (starter_candidates r).take 3) := by
    unfold generate_conversation_starters starter_candidates
    rcases h1 : keyword_starter r.signals "hiring_signals" hiring_sentence with _ | s1 <;>
      rcases h2 : keyword_starter r.signals "tech_stack_signals" tech_sentence with _ | s2 <;>
        rcases h3 : keyword_starter r.signals "pain_point_signals" pain_sentence with _ | s3 <;>
          rcases h4 : strategic_starter r.signals with _ | s4 <;>
            simp [List.reduceOption, Option.toList, List.take, fallback_starters]
  refine ⟨?_, heq⟩
  rw [heq]
  by_cases hc : (starter_candidates r).isEmpty = true
  · rw [if_pos hc]
    simp [fallback_starters]
  · rw [if_neg hc]
    exact List.length_take_le 3 (starter_candidates r)

/-- Claim C6: if no signal group is detected the generator returns exactly
the three fixed generic starters parameterized by the subject's company
name; and with empty gateway results across all groups (default
configuration and thresholds) the whole run yields total_score = 0,
intent_level = Low, and those three generic fallback starters. -/
theorem zero_evidence_fallback : ∀ (d : String) (cn : Option String),
    ((track_signals (fun _ => []) default_signals_config default_thresholds
        d cn).total_score = 0)
    ∧ ((track_signals (fun _ => []) default_signals_config default_thresholds
        d cn).intent_level = "Low")
    ∧ (generate_conversation_starters
        (track_signals (fun _ => []) default_signals_config default_thresholds d cn) =
       fallback_starters
        ((track_signals (fun _ => []) default_signals_config default_thresholds
           d cn).company_name))
    ∧ ((fallback_starters
        ((track_signals (fun _ => []) default_signals_config default_thresholds
           d cn).company_name)).length = 3)
    ∧ (∀ (r : Report), (∀ p ∈ r.signals, p.2.detected = false) →
        generate_conversation_starters r = fallback_starters r.company_name) := by
  intro d cn
  have hgen : ∀ (r : Report), (∀ p ∈ r.signals, p.2.detected = false) →
      generate_conversation_starters r = fallback_starters r.company_name := by
    intro r hall
    have hks : ∀ (g : String) (f : String → String),
        keyword_starter r.signals g f = none := by
      intro g f
      unfold keyword_starter
      cases hg : assocGet g r.signals with
      | none => rfl
      | some sr =>
        obtain ⟨p, hp, _, hp2⟩ := assocGet_mem g r.signals sr hg
        have hdf : sr.detected = false := hp2 ▸ hall p hp
        simp [hdf]
    have hss : strategic_starter r.signals = none := by
      unfold strategic_starter
      cases hg : assocGet "strategic_signals" r.signals with
      | none => rfl
      | some sr =>
        obtain ⟨p, hp, _, hp2⟩ := assocGet_mem _ r.signals sr hg
        have hdf : sr.detected = false := hp2 ▸ hall p hp
        simp [hdf]
    unfold generate_conversation_starters
    rw [hks, hks, hks, hss]
    rfl
  have hres : ∀ (g : SignalGroupConfig),
      result_of (fun _ => []) (resolve_company_name d cn) d g =
        { detected := false, weight := g.weight, evidence := [] } := by
    intro g
    simp [result_of, evaluate_group_empty_gateway]
  have hlist : signal_list (fun _ => []) (resolve_company_name d cn) d
      default_signals_config =
      [("hiring_signals", { detected := false, weight := 25, evidence := [] }),
       ("pain_point_signals", { detected := false, weight := 35, evidence := [] }),
       ("tech_stack_signals", { detected := false, weight := 25, evidence := [] }),
       ("strategic_signals", { detected := false, weight := 15, evidence := [] })] := by
    simp [signal_list, default_signals_config, hres]
  have hsum : signal_sum (fun _ => []) (resolve_company_name d cn) d
      default_signals_config = 0 := by
    simp [signal_sum, group_score, default_signals_config, hres]
  have ht := track_signals_eq (fun _ => []) default_signals_config
    default_thresholds d cn
  refine ⟨?_, ?_, ?_, ?_, hgen⟩
  · rw [ht]
    exact hsum
  · rw [ht]
    show calculate_intent default_thresholds
      (signal_sum (fun _ => []) (resolve_company_name d cn) d default_signals_config) = "Low"
    rw [hsum]
    decide
  · rw [ht]
    refine hgen _ ?_
    show ∀ p ∈ signal_list (fun _ => []) (resolve_company_name d cn) d
      default_signals_config, p.2.detected = false
    rw [hlist]
    intro p hp
    simp only [List.mem_cons, List.not_mem_nil, or_false] at hp
    rcases hp with rfl | rfl | rfl | rfl <;> rfl
  · simp [fallback_starters]

/-- Claim C9: loading a preset whose (normalized) name has no preset file
fails with the "not found" error whose message enumerates every available
preset name as a substring; for every existing, well-formed preset the
loader returns the parsed configuration without error. -/
theorem load_preset_not_found_spec :
    ∀ (α : Type) (files : List (String × Option α)) (name : String),
    (assocGet (normalize_preset_name name) files = none →
      (load_preset files name =
        .error (.not_found (not_found_message (normalize_preset_name name)
          (list_available_presets (files.map Prod.fst)))))
      ∧ (∀ p ∈ list_available_presets (files.map Prod.fst),
          p.data <:+: (not_found_message (normalize_preset_name name)
            (list_available_presets (files.map Prod.fst))).data))
    ∧ (∀ (c : α), assocGet (normalize_preset_name name) files = some (some c) →
        load_preset files name = .ok c) := by
  intro α files name
  constructor
  · intro h
    constructor
    · simp [load_preset, h]
    · intro p hp
      have hjoin := pyJoin_mem_infix ", "
        (list_available_presets (files.map Prod.fst)) p hp
      unfold not_found_message
      refine hjoin.trans ?_
      exact (List.suffix_append _ _).isInfix
  · intro c h
    simp [load_preset, h]

/-! ## Witnesses -/

/-- Witness for C1 at the over-100 scenario: two enabled groups with
weights 70 and 60 both detect, the total is 130 and agrees with the
per-entry sum, and swapping the group order leaves the total unchanged. -/
theorem track_signals_total_score_sum_witness :
    cfg_a.Perm cfg_b
    ∧ (track_signals gw_w cfg_a default_thresholds "acme.com" (some "Acme")).total_score = 130
    ∧ (track_signals gw_w cfg_a default_thresholds "acme.com" (some "Acme")).total_score =
        ((track_signals gw_w cfg_a default_thresholds "acme.com" (some "Acme")).signals.map
          fun p => if p.2.detected then p.2.weight else 0).sum
    ∧ (track_signals gw_w cfg_b default_thresholds "acme.com" (some "Acme")).total_score =
        (track_signals gw_w cfg_a default_thresholds "acme.com" (some "Acme")).total_score :=
  ⟨by decide, by decide,
   (track_signals_total_score_sum gw_w cfg_a cfg_b default_thresholds
     "acme.com" (some "Acme")).1,
   (track_signals_total_score_sum gw_w cfg_a cfg_b default_thresholds
     "acme.com" (some "Acme")).2 (by decide)⟩

/-- Witness for C3 at concrete inputs: empty results yield `(false, [])`. -/
theorem analyze_signal_matching_witness :
    analyze_signal [] ["Snowflake"] = (false, []) :=
  (analyze_signal_matching [] ["Snowflake"]).2.2.mpr (by simp)

/-- Witness for C6: a concrete run with empty gateway results scores 0,
and a concrete all-undetected report gets exactly the fallback starters. -/
theorem zero_evidence_fallback_witness :
    (track_signals (fun _ => []) default_signals_config default_thresholds
      "acme.com" none).total_score = 0
    ∧ (∀ p ∈ rpt_none_detected.signals, p.2.detected = false)
    ∧ generate_conversation_starters rpt_none_detected =
        fallback_starters rpt_none_detected.company_name :=
  ⟨(zero_evidence_fallback "acme.com" none).1, by decide,
   (zero_evidence_fallback "acme.com" none).2.2.2.2 rpt_none_detected (by decide)⟩

/-- Witness for C8 (amended) at a concrete response with one in-range
result and `result_count = 3`. -/
theorem search_result_bounds_amended_witness :
    (1 : Nat) ≤ 3
    ∧ (search_for_signals resp_r0 3).length ≤ 3
    ∧ format_result raw_r0 ∈ search_for_signals resp_r0 3
    ∧ (60 ≤ (format_result raw_r0).description.length ∧
        (format_result raw_r0).description.length ≤ 600) :=
  ⟨by decide, (search_result_bounds_amended resp_r0 3).1 (by decide), by decide,
   (search_result_bounds_amended resp_r0 3).2 (format_result raw_r0) (by decide)⟩

/-- Witness for C9: loading a missing preset from a concrete two-file
directory produces the enumerating error, every available preset name
occurs in the message, and loading an existing preset succeeds. -/
theorem load_preset_not_found_spec_witness :
    assocGet (normalize_preset_name "security") files_w = none
    ∧ load_preset files_w "security" =
        .error (.not_found (not_found_message (normalize_preset_name "security")
          (list_available_presets (files_w.map Prod.fst))))
    ∧ ("devtools" ∈ list_available_presets (files_w.map Prod.fst)
        ∧ ("devtools" : String).data <:+:
            (not_found_message (normalize_preset_name "security")
              (list_available_presets (files_w.map Prod.fst))).data)
    ∧ assocGet (normalize_preset_name "devtools") files_w = some (some 1)
    ∧ load_preset files_w "devtools" = .ok 1 :=
  ⟨by decide,
   ((load_preset_not_found_spec Nat files_w "security").1 (by decide)).1,
   ⟨by decide,
    ((load_preset_not_found_spec Nat files_w "security").1 (by decide)).2
      "devtools" (by decide)⟩,
   by decide,
   (load_preset_not_found_spec Nat files_w "devtools").2 1 (by decide)⟩

/-- Witness for C10 at a concrete run: the detected entry of `cfg_a`
appears in the report's signals with its evidence, and its detected flag
agrees with the non-emptiness of that evidence. -/
theorem track_signals_signals_invariant_witness :
    ("grp_a",
      ({ detected := true, weight := 70,
         evidence := [{ source := "Acme hiring data engineer",
                        url := "https://jobs.example/1",
                        matched_keywords := ["data engineer"],
                        snippet := "Acme is hiring a data engineer" }] } : SignalResult)) ∈
      (track_signals gw_w cfg_a default_thresholds "acme.com" (some "Acme")).signals
    ∧ ((("grp_a",
        ({ detected := true, weight := 70,
           evidence := [{ source := "Acme hiring data engineer",
                          url := "https://jobs.example/1",
                          matched_keywords := ["data engineer"],
                          snippet := "Acme is hiring a data engineer" }] } : SignalResult)) :
          String × SignalResult).2.detected = true ↔
        ((("grp_a",
          ({ detected := true, weight := 70,
             evidence := [{ source := "Acme hiring data engineer",
                            url := "https://jobs.example/1",
                            matched_keywords := ["data engineer"],
                            snippet := "Acme is hiring a data engineer" }] } : SignalResult)) :
            String × SignalResult).2.evidence ≠ [])) :=
  ⟨by decide,
   (track_signals_signals_invariant gw_w cfg_a default_thresholds
     "acme.com" (some "Acme")).2.2.2 _ (by decide)⟩

theorem search_loop_py_records (result_count : Nat) :
    ∀ (entries : List RawResult) (acc : List SearchResult),
      search_loop_py result_count (entries.map .record) acc =
        .ok (search_loop result_count entries acc) := by
  intro entries
  induction entries with
  | nil => intro acc; rfl
  | cons r rest ih =>
    intro acc
    simp only [List.map_cons, search_loop_py, search_loop]
    by_cases hf : 60 ≤ r.description.length ∧ r.description.length ≤ 600
    · rw [if_pos hf]
      by_cases hb : result_count ≤ (acc ++ [format_result r]).length
      · rw [if_pos hb, if_pos hb]
      · rw [if_neg hb, if_neg hb]
        exact ih _
    · rw [if_neg hf]
      by_cases hb : result_count ≤ acc.length
      · rw [if_pos hb, if_pos hb]
      · rw [if_neg hb, if_neg hb]
        exact ih _

theorem evaluate_group_py_ok (g : String → List SearchResult)
    (cname dom : String) (cfg : SignalGroupConfig) :
    evaluate_group_py (fun q => .ok (g q)) cname dom cfg =
      .ok (evaluate_group g cname dom cfg) := by
  unfold evaluate_group_py evaluate_group
  suffices h : ∀ (kws : List String) (acc : Bool × List Evidence),
      evaluate_group_py_aux (fun q => .ok (g q)) cname dom cfg kws acc =
        .ok (kws.foldl
          (fun acc kw =>
            if (analyze_signal
                  (g (format_template cfg.query_template cname dom kw)) [kw]).1 then
              (true,
               acc.2 ++ (analyze_signal
                  (g (format_template cfg.query_template cname dom kw)) [kw]).2)
            else acc)
          acc) from h cfg.keywords (false, [])
  intro kws
  induction kws with
  | nil => intro acc; rfl
  | cons kw kws ih =>
    intro acc
    simp only [evaluate_group_py_aux, List.foldl_cons]
    exact ih _

theorem track_py_aux_ok (g : String → List SearchResult) (cname dom : String) :
    ∀ (l : List (String × SignalGroupConfig)) (acc : Int × List (String × SignalResult)),
      track_signals_py_aux (fun q => .ok (g q)) cname dom l acc =
        .ok (acc.1 + signal_sum g cname dom l, acc.2 ++ signal_list g cname dom l) := by
  intro l
  induction l with
  | nil =>
    intro acc
    simp [track_signals_py_aux, signal_sum, signal_list]
  | cons p rest ih =>
    intro acc
    by_cases hp : p.2.enabled = true
    · simp only [track_signals_py_aux, hp, if_true, evaluate_group_py_ok]
      by_cases hd : (evaluate_group g cname dom p.2).1 = true
      · simp only [hd, if_true]
        rw [ih]
        have h1 : signal_sum g cname dom (p :: rest) =
            p.2.weight + signal_sum g cname dom rest := by
          simp [signal_sum, List.filter_cons, hp, group_score, result_of, hd]
        have h2 : signal_list g cname dom (p :: rest) =
            (p.1, ({ detected := true, weight := p.2.weight,
                     evidence := (evaluate_group g cname dom p.2).2 } : SignalResult)) ::
              signal_list g cname dom rest := by
          simp [signal_list, List.filter_cons, hp, result_of, hd]
        rw [h1, h2]
        simp [add_assoc, List.append_assoc]
      · simp only [hd, if_false, Bool.false_eq_true]
        rw [ih]
        have h1 : signal_sum g cname dom (p :: rest) = signal_sum g cname dom rest := by
          simp [signal_sum, List.filter_cons, hp, group_score, result_of, hd]
        have h2 : signal_list g cname dom (p :: rest) =
            (p.1, ({ detected := false, weight := p.2.weight,
                     evidence := [] } : SignalResult)) ::
              signal_list g cname dom rest := by
          simp [signal_list, List.filter_cons, hp, result_of, hd]
        rw [h1, h2]
        simp [List.append_assoc]
    · simp only [track_signals_py_aux, hp, if_false, Bool.false_eq_true]
      rw [ih]
      have h1 : signal_sum g cname dom (p :: rest) = signal_sum g cname dom rest := by
        simp [signal_sum, List.filter_cons, hp]
      have h2 : signal_list g cname dom (p :: rest) = signal_list g cname dom rest := by
        simp [signal_list, List.filter_cons, hp]
      rw [h1, h2]

theorem track_signals_py_ok (g : String → List SearchResult)
    (cfg : List (String × SignalGroupConfig)) (th : Thresholds)
    (d : String) (cn : Option String) :
    track_signals_py (fun q => .ok (g q)) cfg th d cn =
      .ok (track_signals g cfg th d cn) := by
  rw [track_signals_eq]
  simp only [track_signals_py]
  rw [track_py_aux_ok]
  simp

/-- Claim C7 (counterexample): a parseable but ill-shaped payload is NOT
absorbed — `{"results": 42}` raises `TypeError` at `for result in
results`, `{"results": ["x"]}` raises `AttributeError` at
`result.get("title", "")`, a bare truthy scalar raises `TypeError` at
`"results" not in response`, and on a gateway returning `{"results": 42}`
the exception propagates out of `track_signals` uncaught, so scoring does
not complete. -/
theorem gateway_payload_exception_counterexample :
    search_for_signals_py (.pdict (some (.non_list true false)) false) 3 =
      .error .typeError
    ∧ search_for_signals_py (.pdict (some (.rlist [.non_record])) false) 3 =
      .error .attributeError
    ∧ search_for_signals_py (.pscalar true) 3 = .error .typeError
    ∧ track_signals_full (fun _ => .ok (.pdict (some (.non_list true false)) false))
        cfg_a default_thresholds "acme.com" (some "Acme") = .error .typeError :=
  ⟨rfl, rfl, rfl, rfl⟩

/-- Claim C7 (amended): transport errors, bad HTTP statuses and
unparseable payloads are absorbed inside `SerpClient.query` as
`{"results": []}`; `search_for_signals` returns an empty list for every
absorbed failure, for falsy payloads, and for a missing or empty
`"results"` field; payloads whose results are well-shaped records never
raise and coincide with the record-level gateway model; a scoring run
over a gateway whose calls all succeed with record results, or all fail,
completes without exception — and a run whose calls all fail is
indistinguishable from a run against an always-empty gateway.  However, a
parseable ill-shaped payload (truthy bare scalar, non-array `"results"`
value, non-record entry reached by the loop) raises
`TypeError`/`AttributeError` inside `search_for_signals`, which
propagates into `track_signals` uncaught. -/
theorem gateway_failures_absorbed_amended :
    ∀ (o : GatewayOutcome) (n : Nat) (hk : Bool) (entries : List RawResult)
      (g : String → List SearchResult) (raw_gw : String → GatewayOutcome)
      (cfg : List (String × SignalGroupConfig)) (th : Thresholds)
      (d : String) (cn : Option String),
    (is_gateway_failure o = true → serp_query o = .pdict (some (.rlist [])) false)
    ∧ (is_gateway_failure o = true →
        search_for_signals_py (serp_query o) n = .ok [])
    ∧ (search_for_signals_py (.pdict none hk) n = .ok [])
    ∧ (search_for_signals_py (.pdict (some (.rlist [])) hk) n = .ok [])
    ∧ (search_for_signals_py (.pdict (some (.rlist (entries.map .record))) hk) n =
        .ok (search_for_signals { is_truthy := true, results := some entries } n))
    ∧ (track_signals_py (fun q => .ok (g q)) cfg th d cn =
        .ok (track_signals g cfg th d cn))
    ∧ ((∀ q, is_gateway_failure (raw_gw q) = true) →
        track_signals_full raw_gw cfg th d cn =
          .ok (track_signals (fun _ => []) cfg th d cn)) := by
  intro o n hk entries g raw_gw cfg th d cn
  have habs : is_gateway_failure o = true →
      serp_query o = .pdict (some (.rlist [])) false := by
    intro h
    cases o with
    | ok p => simp [is_gateway_failure] at h
    | transport_error => rfl
    | http_status_error => rfl
    | parse_error => rfl
  refine ⟨habs, ?_, ?_, ?_, ?_, ?_, ?_⟩
  · intro h; rw [habs h]; rfl
  · cases hk <;> rfl
  · cases hk <;> rfl
  · cases entries with
    | nil => cases hk <;> rfl
    | cons e es =>
      simp only [search_for_signals_py, search_for_signals]
      simp only [List.map_cons, List.isEmpty_cons, Option.isSome_some, Bool.true_or]
      simp only [if_neg (by decide : ¬(true = false)), if_neg (Bool.false_ne_true)]
      exact search_loop_py_records n (e :: es) []
  · exact track_signals_py_ok g cfg th d cn
  · intro hall
    have hg : (fun q => search_for_signals_py (serp_query (raw_gw q)) 3) =
        (fun q => .ok ((fun _ : String => ([] : List SearchResult)) q)) := by
      funext q
      have hq := hall q
      cases hc : raw_gw q with
      | ok p => rw [hc] at hq; simp [is_gateway_failure] at hq
      | transport_error => rfl
      | http_status_error => rfl
      | parse_error => rfl
    unfold track_signals_full
    rw [hg]
    exact track_signals_py_ok (fun _ => []) cfg th d cn

/-- Witness for C7 (amended): a transport error is absorbed to an empty
result list, and a run whose every raw call fails completes and equals
the pure run against an always-empty gateway. -/
theorem gateway_failures_absorbed_amended_witness :
    is_gateway_failure .transport_error = true
    ∧ search_for_signals_py (serp_query .transport_error) 3 = .ok []
    ∧ track_signals_full (fun _ => .parse_error) default_signals_config
        default_thresholds "acme.com" none =
      .ok (track_signals (fun _ => []) default_signals_config default_thresholds
        "acme.com" none) :=
  ⟨rfl,
   (gateway_failures_absorbed_amended .transport_error 3 true [] (fun _ => [])
     (fun _ => .parse_error) default_signals_config default_thresholds
     "acme.com" none).2.1 (by decide),
   (gateway_failures_absorbed_amended .transport_error 3 true [] (fun _ => [])
     (fun _ => .parse_error) default_signals_config default_thresholds
     "acme.com" none).2.2.2.2.2.2 (fun _ => rfl)⟩
